import Mathlib

/-!
Shallow embedding of the A2A repository's task-lifecycle and routing core
(src/models/task.py, src/server/task_manager.py, src/server/server.py,
src/agents/tell_time_agent/task_manager.py, src/agents/greeting_agent/task_manager.py,
src/agents/host_agent/orchestrator.py, src/utilities/discovery.py,
src/utilities/rpc_logger.py), together with theorems settling the spec claims.

Conventions of the embedding:
- Python `datetime.now()` is modelled as an explicit `Nat` clock argument `now`.
- The in-memory task dict `self.tasks : Dict[str, Task]` is modelled as the
  partial map `String → Option A2A.Task`; dict assignment is `storeSet`,
  `dict.get` is `storeGet`.
- Stateful methods become explicit state passing: a method that mutates the
  store returns the new store.
- Code that can raise returns `Except String α`; the string is the message.
- Network and filesystem effects are parameters: the discovery HTTP fetch is a
  function from base URL to an `Except` outcome, the logger's `os.makedirs` and
  file append are `Except` outcomes supplied by the caller.
-/

namespace A2A

/-- `TextPart` from src/models/task.py: `{type: "text", text: str}`.
The constant discriminator field `type` is omitted (it is literal). -/
structure TextPart where
  text : String
deriving DecidableEq, Repr

/-- `Part = TextPart` (src/models/task.py). -/
abbrev Part := TextPart

/-- The `role` literal of a `Message`: `"user" | "agent"`. -/
inductive Role where
  | user
  | agent
deriving DecidableEq, Repr

/-- `Message` from src/models/task.py. -/
structure Message where
  role : Role
  parts : List Part
deriving DecidableEq, Repr

/-- `TaskStatus` from src/models/task.py; `timestamp: datetime` is modelled as
a `Nat` instant supplied by the caller at construction time. -/
structure TaskStatus where
  state : String
  timestamp : Nat
deriving DecidableEq, Repr

/-- `Task` from src/models/task.py. -/
structure Task where
  id : String
  status : TaskStatus
  history : List Message
deriving DecidableEq, Repr

/-- `TaskSendParams` from src/models/task.py; `metadata: dict[str, Any] | None`
is modelled as an optional association list of strings (it is never read by the
core). `sessionId` defaults to a fresh uuid in the source; here it is always
explicit. -/
structure TaskSendParams where
  id : String
  sessionId : String
  message : Message
  historyLength : Option Int := none
  metadata : Option (List (String × String)) := none
deriving DecidableEq, Repr

/-- `TaskQueryParams` from src/models/task.py (a `TaskIdParams` plus
`historyLength: int | None`). -/
structure TaskQueryParams where
  id : String
  metadata : Option (List (String × String)) := none
  historyLength : Option Int := none
deriving DecidableEq, Repr

/-- The `TaskState` enum values from src/models/task.py (string-valued). -/
def TaskState.SUBMITTED : String := "submitted"

/-- `TaskState.COMPLETED` from src/models/task.py. -/
def TaskState.COMPLETED : String := "completed"

/-- The in-memory store `self.tasks : Dict[str, Task]` of
`InMemoryTaskManager` (src/server/task_manager.py), as a partial map. -/
def TaskStore := String → Option Task

/-- The store of a freshly constructed `InMemoryTaskManager`: `{}`. -/
def emptyStore : TaskStore := fun _ => none

/-- `self.tasks.get(id)` on the store. -/
def storeGet (tasks : TaskStore) (id : String) : Option Task := tasks id

/-- `self.tasks[id] = task` on the store. -/
def storeSet (tasks : TaskStore) (id : String) (t : Task) : TaskStore :=
  fun k => if k = id then some t else tasks k

/-- `InMemoryTaskManager.upsert_task` (src/server/task_manager.py, lines 60-85):
under the lock, look up `params.id`; if absent, create a task with status
`submitted` (timestamped `now`) and history `[params.message]` and store it;
otherwise append `params.message` to the existing task's history (in-place
mutation: the stored task and the returned task are the same object). Returns
the task together with the resulting store. -/
def upsert_task (now : Nat) (params : TaskSendParams) (tasks : TaskStore) :
    Task × TaskStore :=
  match storeGet tasks params.id with
  | none =>
      let task : Task :=
        { id := params.id
          status := { state := TaskState.SUBMITTED, timestamp := now }
          history := [params.message] }
      (task, storeSet tasks params.id task)
  | some task =>
      let task' : Task := { task with history := task.history ++ [params.message] }
      (task', storeSet tasks params.id task')

/-- A serialized sequence of `upsert_task` calls, in call order
(src/server/task_manager.py: each call runs under `self.lock`). -/
def upsertAll (now : Nat) (calls : List TaskSendParams) (tasks : TaskStore) :
    TaskStore :=
  calls.foldl (fun s p => (upsert_task now p s).2) tasks

theorem storeGet_storeSet_self (tasks : TaskStore) (id : String) (t : Task) :
    storeGet (storeSet tasks id t) id = some t := by
  simp [storeGet, storeSet]

theorem upsertAll_existing (now : Nat) (id : String) :
    ∀ (calls : List TaskSendParams) (tasks : TaskStore) (t : Task),
      storeGet tasks id = some t → (∀ p ∈ calls, p.id = id) →
      ∃ t', storeGet (upsertAll now calls tasks) id = some t' ∧
        t'.id = t.id ∧ t'.status = t.status ∧
        t'.history = t.history ++ calls.map TaskSendParams.message := by
  intro calls
  induction calls with
  | nil =>
      intro tasks t hget _
      exact ⟨t, hget, rfl, rfl, by simp⟩
  | cons p ps ih =>
      intro tasks t hget hids
      have hpid : p.id = id := hids p (by simp)
      have hstep : upsert_task now p tasks =
          ({ t with history := t.history ++ [p.message] },
           storeSet tasks p.id { t with history := t.history ++ [p.message] }) := by
        unfold upsert_task
        rw [hpid, hget]
      have hget' : storeGet (upsert_task now p tasks).2 id =
          some { t with history := t.history ++ [p.message] } := by
        rw [hstep, hpid]
        exact storeGet_storeSet_self tasks id _
      obtain ⟨t', h1, h2, h3, h4⟩ := ih (upsert_task now p tasks).2
        { t with history := t.history ++ [p.message] } hget'
        (fun q hq => hids q (by simp [hq]))
      refine ⟨t', ?_, h2, h3, ?_⟩
      · simpa [upsertAll] using h1
      · simpa [List.append_assoc] using h4

/-- Python slicing `xs[s:]` (step 1, only a start index): a negative start
counts from the end and is clamped at 0; a non-negative start is clamped at
`len(xs)`. Used by `on_get_task` as `history[-historyLength:]`. -/
def pySliceFrom (s : Int) (xs : List α) : List α :=
  if s < 0 then xs.drop ((xs.length + s).toNat)
  else xs.drop s.toNat

/-- `GetTaskRequest` shape. Modelled from the spec: src/models/request.py is
not in the repository snapshot; the spec gives the get-task request shape
`\x7bid, params: \x7bid, historyLength?, metadata?\x7d\x7d`, with `params` the
`TaskQueryParams` of src/models/task.py. The JSON-RPC request id is modelled
as a string. -/
structure GetTaskRequest where
  id : String
  params : TaskQueryParams
deriving DecidableEq, Repr

/-- A JSON-RPC error object (the `error={"message": ...}` dict used by
`on_get_task` and the spec's error envelope). Modelled from the spec:
src/models/json_rpc.py is not in the repository snapshot. -/
structure JSONRPCError where
  message : String
deriving DecidableEq, Repr

/-- `GetTaskResponse` shape. Modelled from the spec: src/models/request.py is
not in the repository snapshot; the spec's response envelope is
`\x7bid, result | error\x7d`. -/
structure GetTaskResponse where
  id : String
  result : Option Task := none
  error : Option JSONRPCError := none
deriving DecidableEq, Repr

/-- `InMemoryTaskManager.on_get_task` (src/server/task_manager.py, lines
97-123): under the lock, look up `request.params.id`; if absent, return a
response with error `"Task not found"` (and no result) — the store is not
touched. Otherwise take a copy of the task; if `historyLength` is given,
replace the copy's history by the Python slice `history[-historyLength:]`;
return the copy as the result. The (unchanged) store is returned alongside. -/
def on_get_task (tasks : TaskStore) (request : GetTaskRequest) :
    GetTaskResponse × TaskStore :=
  match storeGet tasks request.params.id with
  | none =>
      ({ id := request.id, error := some { message := "Task not found" } }, tasks)
  | some task =>
      let task_copy : Task :=
        match request.params.historyLength with
        | some n => { task with history := pySliceFrom (-n) task.history }
        | none => task
      ({ id := request.id, result := some task_copy }, tasks)

/-- C1: `upsert_task` creates a task with state `submitted` and history
`[params.message]` when `params.id` is fresh, appends `params.message` and
returns the mutated task when it exists, and therefore a serialized sequence
of upserts with one task id ends with history equal to the calls' messages in
call order. -/
theorem upsert_task_spec (now : Nat) (tasks : TaskStore) (params : TaskSendParams) :
    (storeGet tasks params.id = none →
      (upsert_task now params tasks).1 =
        { id := params.id
          status := { state := TaskState.SUBMITTED, timestamp := now }
          history := [params.message] } ∧
      storeGet (upsert_task now params tasks).2 params.id =
        some (upsert_task now params tasks).1) ∧
    (∀ t, storeGet tasks params.id = some t →
      (upsert_task now params tasks).1 =
        { t with history := t.history ++ [params.message] } ∧
      storeGet (upsert_task now params tasks).2 params.id =
        some (upsert_task now params tasks).1) ∧
    (∀ (id : String) (calls : List TaskSendParams),
      storeGet tasks id = none → (∀ p ∈ calls, p.id = id) → calls ≠ [] →
      (storeGet (upsertAll now calls tasks) id).map Task.history =
        some (calls.map TaskSendParams.message)) := by
  refine ⟨?_, ?_, ?_⟩
  · intro hnone
    constructor
    · unfold upsert_task
      rw [hnone]
    · unfold upsert_task
      rw [hnone]
      exact storeGet_storeSet_self tasks params.id _
  · intro t hsome
    constructor
    · unfold upsert_task
      rw [hsome]
    · unfold upsert_task
      rw [hsome]
      exact storeGet_storeSet_self tasks params.id _
  · intro id calls hnone hids hne
    match calls, hne with
    | p :: ps, _ =>
      have hpid : p.id = id := hids p (by simp)
      have hstep : upsert_task now p tasks =
          ({ id := p.id
             status := { state := TaskState.SUBMITTED, timestamp := now }
             history := [p.message] },
           storeSet tasks p.id
             { id := p.id
               status := { state := TaskState.SUBMITTED, timestamp := now }
               history := [p.message] }) := by
        unfold upsert_task
        rw [hpid, hnone]
      have hget' : storeGet (upsert_task now p tasks).2 id =
          some { id := p.id
                 status := { state := TaskState.SUBMITTED, timestamp := now }
                 history := [p.message] } := by
        rw [hstep, hpid]
        exact storeGet_storeSet_self tasks id _
      obtain ⟨t', h1, _, _, h4⟩ := upsertAll_existing now id ps
        (upsert_task now p tasks).2 _ hget' (fun q hq => hids q (by simp [hq]))
      have : upsertAll now (p :: ps) tasks = upsertAll now ps (upsert_task now p tasks).2 := by
        simp [upsertAll]
      rw [this, h1]
      simp [h4]

/-- A sample user message, reused in witnesses. -/
def hiMsg : Message := { role := Role.user, parts := [{ text := "hi" }] }

/-- A second sample user message, reused in witnesses. -/
def byeMsg : Message := { role := Role.user, parts := [{ text := "bye" }] }

/-- Send params carrying `hiMsg` for task "t1". -/
def pHi : TaskSendParams := { id := "t1", sessionId := "s1", message := hiMsg }

/-- Send params carrying `byeMsg` for task "t1". -/
def pBye : TaskSendParams := { id := "t1", sessionId := "s1", message := byeMsg }

/-- Witness for C1 at concrete inputs: the create case on the empty store, the
append case on a store holding "t1", and a two-call sequence. -/
theorem upsert_task_spec_witness :
    (upsert_task 0 pHi emptyStore).1 =
      { id := "t1"
        status := { state := TaskState.SUBMITTED, timestamp := 0 }
        history := [hiMsg] } ∧
    (upsert_task 1 pBye (upsert_task 0 pHi emptyStore).2).1 =
      { id := "t1"
        status := { state := TaskState.SUBMITTED, timestamp := 0 }
        history := [hiMsg, byeMsg] } ∧
    (storeGet (upsertAll 0 [pHi, pBye] emptyStore) "t1").map Task.history =
      some [hiMsg, byeMsg] := by
  refine ⟨((upsert_task_spec 0 emptyStore pHi).1 rfl).1, ?_, ?_⟩
  · have h1 := (upsert_task_spec 0 emptyStore pHi).1 rfl
    have h2 := ((upsert_task_spec 1 (upsert_task 0 pHi emptyStore).2 pBye).2.1
      (upsert_task 0 pHi emptyStore).1 (by have h := h1.2; simpa [pHi, pBye] using h))
    rw [h2.1, h1.1]
    simp [pHi, pBye]
  · exact (upsert_task_spec 0 emptyStore pHi).2.2 "t1" [pHi, pBye] rfl
      (by intro p hp; simp [pHi, pBye] at hp; rcases hp with h | h <;> simp [h, pHi, pBye])
      (by simp)

/-- C10: an `upsert_task` call on an existing task id leaves every field of
the stored task other than `history` unchanged — same `id`, same `status`
(state and timestamp) — and changes `history` only by appending
`params.message` at the end; the mutated task is what is stored. -/
theorem upsert_task_frame (now : Nat) (params : TaskSendParams) (tasks : TaskStore)
    (t : Task) (hsome : storeGet tasks params.id = some t) :
    (upsert_task now params tasks).1.id = t.id ∧
    (upsert_task now params tasks).1.status = t.status ∧
    (upsert_task now params tasks).1.history = t.history ++ [params.message] ∧
    storeGet (upsert_task now params tasks).2 params.id =
      some (upsert_task now params tasks).1 := by
  unfold upsert_task
  rw [hsome]
  exact ⟨rfl, rfl, rfl, storeGet_storeSet_self tasks params.id _⟩

/-- Witness for C10: appending to a stored task with a nontrivial status
preserves id, state and timestamp exactly. -/
theorem upsert_task_frame_witness :
    (upsert_task 7 pBye
      (storeSet emptyStore "t1"
        { id := "t1"
          status := { state := "completed", timestamp := 3 }
          history := [hiMsg] })).1.id = "t1" ∧
    (upsert_task 7 pBye
      (storeSet emptyStore "t1"
        { id := "t1"
          status := { state := "completed", timestamp := 3 }
          history := [hiMsg] })).1.status = { state := "completed", timestamp := 3 } ∧
    (upsert_task 7 pBye
      (storeSet emptyStore "t1"
        { id := "t1"
          status := { state := "completed", timestamp := 3 }
          history := [hiMsg] })).1.history = [hiMsg] ++ [byeMsg] := by
  have h := upsert_task_frame 7 pBye
    (storeSet emptyStore "t1"
      { id := "t1"
        status := { state := "completed", timestamp := 3 }
        history := [hiMsg] })
    { id := "t1"
      status := { state := "completed", timestamp := 3 }
      history := [hiMsg] }
    (storeGet_storeSet_self emptyStore "t1" _)
  exact ⟨h.1, h.2.1, h.2.2.1⟩

/-- A stored task for "t1" with a two-message history, reused in examples. -/
def taskT1two : Task :=
  { id := "t1"
    status := { state := TaskState.SUBMITTED, timestamp := 0 }
    history := [hiMsg, byeMsg] }

/-- C3 counterexample: with a stored history of length 2, a get-task query
with `historyLength = 0` returns the FULL history, not the empty history the
claim's `min(0, L) = 0` demands — Python's `history[-0:]` is `history[0:]`. -/
theorem on_get_task_zero_counterexample :
    ((on_get_task (storeSet emptyStore "t1" taskT1two)
        { id := "r1", params := { id := "t1", historyLength := some 0 } }).1.result.map
      Task.history) = some [hiMsg, byeMsg] ∧
    some [hiMsg, byeMsg] ≠ some ([] : List Message) := by
  constructor
  · rfl
  · simp

/-- C3 (amended): for a stored task, `on_get_task` with no `historyLength`
returns the full history; with `historyLength = n ≥ 1` it returns the last
`min(n, L)` messages; with `historyLength = 0` it returns the full history
(Python `history[-0:]`), not the empty one. -/
theorem on_get_task_history_truncation (tasks : TaskStore) (request : GetTaskRequest)
    (t : Task) (hsome : storeGet tasks request.params.id = some t) :
    (request.params.historyLength = none →
      (on_get_task tasks request).1.result = some t) ∧
    (request.params.historyLength = some 0 →
      (on_get_task tasks request).1.result = some t) ∧
    (∀ n : Int, request.params.historyLength = some n → 1 ≤ n →
      (on_get_task tasks request).1.result =
        some { t with history := t.history.drop (t.history.length - n.toNat) } ∧
      ((on_get_task tasks request).1.result.map (fun tk => tk.history.length)) =
        some (min n.toNat t.history.length)) := by
  refine ⟨?_, ?_, ?_⟩
  · intro hnone
    unfold on_get_task
    rw [hsome, hnone]
  · intro hzero
    unfold on_get_task
    rw [hsome, hzero]
    simp [pySliceFrom]
  · intro n hn hpos
    have hdrop : pySliceFrom (-n) t.history =
        t.history.drop (t.history.length - n.toNat) := by
      unfold pySliceFrom
      rw [if_pos (by omega : -n < (0 : Int))]
      congr 1
      omega
    constructor
    · unfold on_get_task
      rw [hsome, hn]
      simp [hdrop]
    · unfold on_get_task
      rw [hsome, hn]
      simp [hdrop, List.length_drop]
      omega

/-- Witness for C3 (amended) on a two-message history: absent `historyLength`
gives the full history, `historyLength = 0` gives the full history, and
`historyLength = 1` gives the last message. -/
theorem on_get_task_history_truncation_witness :
    (on_get_task (storeSet emptyStore "t1" taskT1two)
        { id := "r1", params := { id := "t1" } }).1.result = some taskT1two ∧
    (on_get_task (storeSet emptyStore "t1" taskT1two)
        { id := "r2", params := { id := "t1", historyLength := some 0 } }).1.result =
      some taskT1two ∧
    (on_get_task (storeSet emptyStore "t1" taskT1two)
        { id := "r3", params := { id := "t1", historyLength := some 1 } }).1.result =
      some { taskT1two with history := taskT1two.history.drop (taskT1two.history.length - 1) } := by
  refine ⟨?_, ?_, ?_⟩
  · exact (on_get_task_history_truncation (storeSet emptyStore "t1" taskT1two)
      { id := "r1", params := { id := "t1" } } taskT1two rfl).1 rfl
  · exact (on_get_task_history_truncation (storeSet emptyStore "t1" taskT1two)
      { id := "r2", params := { id := "t1", historyLength := some 0 } } taskT1two rfl).2.1 rfl
  · exact ((on_get_task_history_truncation (storeSet emptyStore "t1" taskT1two)
      { id := "r3", params := { id := "t1", historyLength := some 1 } } taskT1two rfl).2.2
      1 rfl (by omega)).1

/-- C9: a get-task on an unknown id yields a response whose error is
`"Task not found"` and whose result is absent; the store is unchanged, so a
subsequent `upsert_task` on that id still behaves as a first creation. -/
theorem on_get_task_not_found (tasks : TaskStore) (request : GetTaskRequest)
    (hnone : storeGet tasks request.params.id = none) :
    (on_get_task tasks request).1.error = some { message := "Task not found" } ∧
    (on_get_task tasks request).1.result = none ∧
    (on_get_task tasks request).2 = tasks ∧
    (∀ (now : Nat) (params : TaskSendParams), params.id = request.params.id →
      (upsert_task now params (on_get_task tasks request).2).1 =
        { id := params.id
          status := { state := TaskState.SUBMITTED, timestamp := now }
          history := [params.message] }) := by
  have hresp : on_get_task tasks request =
      ({ id := request.id, error := some { message := "Task not found" } }, tasks) := by
    unfold on_get_task
    rw [hnone]
  refine ⟨by rw [hresp], by rw [hresp], by rw [hresp], ?_⟩
  intro now params hpid
  rw [hresp]
  unfold upsert_task
  rw [hpid, hnone]

/-- Witness for C9: on the empty store, get-task for "t1" errors with
"Task not found", creates nothing, and a following upsert creates afresh. -/
theorem on_get_task_not_found_witness :
    (on_get_task emptyStore { id := "r1", params := { id := "t1" } }).1.error =
      some { message := "Task not found" } ∧
    (on_get_task emptyStore { id := "r1", params := { id := "t1" } }).1.result = none ∧
    (on_get_task emptyStore { id := "r1", params := { id := "t1" } }).2 = emptyStore ∧
    (upsert_task 5 pHi
        (on_get_task emptyStore { id := "r1", params := { id := "t1" } }).2).1 =
      { id := pHi.id
        status := { state := TaskState.SUBMITTED, timestamp := 5 }
        history := [pHi.message] } := by
  have h := on_get_task_not_found emptyStore { id := "r1", params := { id := "t1" } } rfl
  exact ⟨h.1, h.2.1, h.2.2.1, h.2.2.2 5 pHi rfl⟩

/-- `SendTaskRequest` shape. Modelled from the spec: src/models/request.py is
not in the repository snapshot; the spec gives the send-task request shape
`\x7bid, params: TaskSendParams\x7d`. -/
structure SendTaskRequest where
  id : String
  params : TaskSendParams
deriving DecidableEq, Repr

/-- `SendTaskResponse` shape. Modelled from the spec: src/models/request.py is
not in the repository snapshot; the spec's response envelope is
`\x7bid, result | error\x7d`. -/
structure SendTaskResponse where
  id : String
  result : Option Task := none
  error : Option JSONRPCError := none
deriving DecidableEq, Repr

/-- `AgentTaskManager.on_send_task` (src/agents/tell_time_agent/task_manager.py,
lines 37-63) and the identically shaped `GreetingTaskManager.on_send_task`
(src/agents/greeting_agent/task_manager.py, lines 50-82), generic over the
backing reasoner `invoke(query, session_id) -> reply_text`:
1. `upsert_task(request.params)` (timestamped `now1`);
2. extract `request.params.message.parts[0].text` (raises IndexError on empty
   parts — the upsert has already happened);
3. call `invoke`;
4. append an agent-role message with the reply and set status `completed`
   (timestamped `now2`) — in-place mutation of the stored task, modelled by
   writing the updated task back under `request.params.id`;
5. return a response wrapping the updated task, alongside the new store. -/
def on_send_task (invoke : String → String → String) (now1 now2 : Nat)
    (request : SendTaskRequest) (tasks : TaskStore) :
    Except String SendTaskResponse × TaskStore :=
  let task := (upsert_task now1 request.params tasks).1
  let tasks1 := (upsert_task now1 request.params tasks).2
  match request.params.message.parts.head? with
  | none => (Except.error "IndexError: list index out of range", tasks1)
  | some part =>
      let result_text := invoke part.text request.params.sessionId
      let agent_message : Message := { role := Role.agent, parts := [{ text := result_text }] }
      let task2 : Task :=
        { task with
          status := { state := TaskState.COMPLETED, timestamp := now2 }
          history := task.history ++ [agent_message] }
      (Except.ok { id := request.id, result := some task2, error := none },
       storeSet tasks1 request.params.id task2)

/-- C2: a send-task handled by a concrete task manager whose reasoner replies
`r` to the request's user text returns a response wrapping a task with status
state `completed` and history equal to the prior history with the user message
and an agent-role message carrying `r` appended. -/
theorem on_send_task_completed (invoke : String → String → String) (now1 now2 : Nat)
    (request : SendTaskRequest) (tasks : TaskStore) (part : Part) (rest : List Part)
    (hparts : request.params.message.parts = part :: rest) :
    ∃ resp, (on_send_task invoke now1 now2 request tasks).1 = Except.ok resp ∧
      resp.id = request.id ∧
      ∃ tk, resp.result = some tk ∧
        tk.status.state = TaskState.COMPLETED ∧
        tk.history =
          (((storeGet tasks request.params.id).map Task.history).getD []) ++
            [request.params.message,
             { role := Role.agent
               parts := [{ text := invoke part.text request.params.sessionId }] }] := by
  cases hstore : storeGet tasks request.params.id with
  | none =>
      simp only [on_send_task, upsert_task, hstore, hparts, List.head?]
      exact ⟨_, rfl, rfl, _, rfl, rfl, by simp⟩
  | some t =>
      simp only [on_send_task, upsert_task, hstore, hparts, List.head?]
      exact ⟨_, rfl, rfl, _, rfl, rfl, by simp⟩

/-- Witness for C2: a fresh task id "t1" with user message "hi" against a stub
reasoner returning "hello" yields a completed task with history
`[user:"hi", agent:"hello"]`. -/
theorem on_send_task_completed_witness :
    ∃ resp, (on_send_task (fun _ _ => "hello") 0 1
        { id := "r1", params := pHi } emptyStore).1 = Except.ok resp ∧
      resp.id = "r1" ∧
      ∃ tk, resp.result = some tk ∧
        tk.status.state = TaskState.COMPLETED ∧
        tk.history = [hiMsg, { role := Role.agent, parts := [{ text := "hello" }] }] :=
  on_send_task_completed (fun _ _ => "hello") 0 1
    { id := "r1", params := pHi } emptyStore { text := "hi" } [] rfl

/-- The outcome of `request.json()` followed by `A2ARequest.validate_python`
at the `POST /` boundary (src/server/server.py). Modelled from the spec:
src/models/request.py is not in the repository snapshot; the validator
recognizes exactly the send-task and get-task shapes, and `parseFailure`
stands for a malformed body or an unrecognized shape (the raised
ParseError/ValidationError's message). -/
inductive ParsedBody where
  | parseFailure (msg : String)
  | sendTask (r : SendTaskRequest)
  | getTask (r : GetTaskRequest)
deriving DecidableEq, Repr

/-- The HTTP response produced by `A2AServer._handle_request` via
`_create_response` / the error `JSONResponse` (src/server/server.py):
HTTP status, JSON-RPC id, result and error message of the body. -/
structure HttpResponse where
  status : Nat
  id : Option String
  result : Option Task := none
  error : Option String := none
deriving DecidableEq, Repr

/-- `A2AServer._handle_request` (src/server/server.py, lines 79-109): parse
and validate the body; if it is a `SendTaskRequest`, delegate to the task
manager's `on_send_task` and wrap the result (HTTP 200); for ANY other
validated request (including a well-formed `GetTaskRequest`) raise
`ValueError("Unsupported A2A method: ...")`. Every exception is caught and
mapped to HTTP 400 with `JSONRPCResponse(id=None, error=InternalError(str(e)))`
— the id of an error response is always `None`, never the request's id. -/
def handle_request (invoke : String → String → String) (now1 now2 : Nat)
    (body : ParsedBody) (tasks : TaskStore) : HttpResponse × TaskStore :=
  match body with
  | ParsedBody.parseFailure msg =>
      ({ status := 400, id := none, error := some msg }, tasks)
  | ParsedBody.getTask _ =>
      ({ status := 400, id := none
         error := some "Unsupported A2A method: GetTaskRequest" }, tasks)
  | ParsedBody.sendTask r =>
      match on_send_task invoke now1 now2 r tasks with
      | (Except.ok resp, tasks') =>
          ({ status := 200, id := some resp.id, result := resp.result }, tasks')
      | (Except.error e, tasks') =>
          ({ status := 400, id := none, error := some e }, tasks')

/-- A stub reasoner used in the boundary counterexamples. -/
def stubInvoke : String → String → String := fun _ _ => "stub"

/-- C4 counterexample: a well-formed get-task request for a stored task is NOT
dispatched to `on_get_task` — the server answers HTTP 400 with the
"Unsupported A2A method" error and no result, although `on_get_task` on the
same store would have produced a result. -/
theorem handle_request_get_task_counterexample :
    (handle_request stubInvoke 0 1
        (ParsedBody.getTask { id := "req-9", params := { id := "t1" } })
        (storeSet emptyStore "t1" taskT1two)).1 =
      { status := 400, id := none, result := none
        error := some "Unsupported A2A method: GetTaskRequest" } ∧
    (on_get_task (storeSet emptyStore "t1" taskT1two)
        { id := "req-9", params := { id := "t1" } }).1.result = some taskT1two := by
  constructor
  · rfl
  · rfl

/-- C4 (amended): the validated request set contains send-task and get-task,
but only send-task is dispatched to the manager; every get-task request fails
at the boundary with the `Unsupported A2A method` error (HTTP 400, null id)
before reaching any manager, leaving the store unchanged. -/
theorem handle_request_dispatch (invoke : String → String → String) (now1 now2 : Nat)
    (r : GetTaskRequest) (tasks : TaskStore) :
    handle_request invoke now1 now2 (ParsedBody.getTask r) tasks =
      ({ status := 400, id := none, result := none
         error := some "Unsupported A2A method: GetTaskRequest" }, tasks) := by
  rfl

/-- C5 counterexample: a failing request whose id is plainly determinable
(a well-formed get-task with id "req-1") is answered with id `null`, not the
echoed id the claim requires. -/
theorem handle_request_error_id_counterexample :
    (handle_request stubInvoke 0 1
        (ParsedBody.getTask { id := "req-1", params := { id := "t1" } })
        emptyStore).1.status = 400 ∧
    (handle_request stubInvoke 0 1
        (ParsedBody.getTask { id := "req-1", params := { id := "t1" } })
        emptyStore).1.error.isSome = true ∧
    (handle_request stubInvoke 0 1
        (ParsedBody.getTask { id := "req-1", params := { id := "t1" } })
        emptyStore).1.id = none ∧
    (none : Option String) ≠ some "req-1" := by
  refine ⟨rfl, rfl, rfl, by simp⟩

/-- C5 (amended): every failing request (parse error, unsupported method,
internal exception) is answered with HTTP 400 and a structured error body
whose id is ALWAYS null — even when the request id could be determined — and
every successful request is answered with HTTP 200. -/
theorem handle_request_error_shape (invoke : String → String → String)
    (now1 now2 : Nat) (body : ParsedBody) (tasks : TaskStore) :
    ((handle_request invoke now1 now2 body tasks).1.error.isSome →
      (handle_request invoke now1 now2 body tasks).1.status = 400 ∧
      (handle_request invoke now1 now2 body tasks).1.id = none) ∧
    ((handle_request invoke now1 now2 body tasks).1.error = none →
      (handle_request invoke now1 now2 body tasks).1.status = 200) := by
  cases body with
  | parseFailure msg => exact ⟨fun _ => ⟨rfl, rfl⟩, by simp [handle_request]⟩
  | getTask r => exact ⟨fun _ => ⟨rfl, rfl⟩, by simp [handle_request]⟩
  | sendTask r =>
      cases hsend : on_send_task invoke now1 now2 r tasks with
      | mk res tasks' =>
          cases res with
          | ok resp =>
              constructor
              · intro h
                simp [handle_request, hsend] at h
              · intro _
                simp [handle_request, hsend]
          | error e =>
              constructor
              · intro _
                simp [handle_request, hsend]
              · intro h
                simp [handle_request, hsend] at h

/-- Witness for C5 (amended): a parse failure yields 400 with null id, and a
successful send-task yields 200. -/
theorem handle_request_error_shape_witness :
    ((handle_request stubInvoke 0 1 (ParsedBody.parseFailure "bad json")
        emptyStore).1.status = 400 ∧
      (handle_request stubInvoke 0 1 (ParsedBody.parseFailure "bad json")
        emptyStore).1.id = none) ∧
    (handle_request stubInvoke 0 1
        (ParsedBody.sendTask { id := "r1", params := pHi }) emptyStore).1.status = 200 := by
  constructor
  · exact (handle_request_error_shape stubInvoke 0 1
      (ParsedBody.parseFailure "bad json") emptyStore).1 rfl
  · exact (handle_request_error_shape stubInvoke 0 1
      (ParsedBody.sendTask { id := "r1", params := pHi }) emptyStore).2 rfl

/-- `AgentCapabilities` from src/models/agent.py. -/
structure AgentCapabilities where
  streaming : Bool := false
  pushNotifications : Bool := false
  stateTransitionHistory : Bool := false
deriving DecidableEq, Repr

/-- `AgentSkill` from src/models/agent.py. -/
structure AgentSkill where
  id : String
  name : String
  description : Option String := none
  tags : Option (List String) := none
  examples : Option (List String) := none
  inputModes : Option (List String) := none
  outputModes : Option (List String) := none
deriving DecidableEq, Repr

/-- `AgentCard` from src/models/agent.py. -/
structure AgentCard where
  name : String
  description : String
  url : String
  version : String
  capabilities : AgentCapabilities
  skills : List AgentSkill
deriving DecidableEq, Repr

/-- `DiscoveryClient.list_agent_cards` (src/utilities/discovery.py, lines
65-93): iterate the registry's base URLs in order; for each, perform the HTTP
GET of `\x7bbase\x7d/.well-known/agent.json` and schema validation — modelled
as the effect function `fetchCard`, whose `Except.error` covers network
errors, timeouts, non-2xx statuses (`raise_for_status`) and validation
failures. A failing URL is skipped (logged and swallowed); a succeeding
card is appended. The function is total: it never raises. -/
def list_agent_cards (fetchCard : String → Except String AgentCard)
    (base_urls : List String) : List AgentCard :=
  base_urls.foldl
    (fun cards base =>
      match fetchCard base with
      | Except.ok card => cards ++ [card]
      | Except.error _ => cards)
    []

theorem except_toOption_ok (a : α) : (Except.ok a : Except ε α).toOption = some a := rfl

theorem except_toOption_error (e : ε) :
    (Except.error e : Except ε α).toOption = (none : Option α) := rfl

theorem list_agent_cards_foldl (fetchCard : String → Except String AgentCard) :
    ∀ (base_urls : List String) (acc : List AgentCard),
      base_urls.foldl
        (fun cards base =>
          match fetchCard base with
          | Except.ok card => cards ++ [card]
          | Except.error _ => cards)
        acc =
      acc ++ base_urls.filterMap (fun u => (fetchCard u).toOption) := by
  intro base_urls
  induction base_urls with
  | nil => intro acc; simp
  | cons u us ih =>
      intro acc
      cases hu : fetchCard u with
      | ok card =>
          simp only [List.foldl_cons, List.filterMap_cons, hu, except_toOption_ok]
          rw [ih]
          simp
      | error e =>
          simp only [List.foldl_cons, List.filterMap_cons, hu, except_toOption_error]
          rw [ih]

/-- The card served by the tell-time agent, as a concrete example. -/
def tellTimeCard : AgentCard :=
  { name := "TellTimeAgent"
    description := "Tells the current time"
    url := "http://localhost:10002"
    version := "1.0.0"
    capabilities := {}
    skills := [] }

/-- The card served by the greeting agent, as a concrete example. -/
def greetingCard : AgentCard :=
  { name := "GreetingAgent"
    description := "Returns a greeting"
    url := "http://localhost:10001"
    version := "1.0.0"
    capabilities := {}
    skills := [] }

/-- A discovery network where the middle of three registry URLs is
unreachable. -/
def flakyNet : String → Except String AgentCard :=
  fun u =>
    if u = "http://localhost:10002" then Except.ok tellTimeCard
    else if u = "http://localhost:9999" then Except.error "ConnectError: connection refused"
    else Except.ok greetingCard

/-- C8: `list_agent_cards` never raises and returns exactly the cards of the
succeeding URLs in registry order; in particular, with one unreachable URL
among three, the two reachable agents' cards are returned in original order. -/
theorem list_agent_cards_partial_failure :
    (∀ (fetchCard : String → Except String AgentCard) (base_urls : List String),
      list_agent_cards fetchCard base_urls =
        base_urls.filterMap (fun u => (fetchCard u).toOption)) ∧
    list_agent_cards flakyNet
        ["http://localhost:10002", "http://localhost:9999", "http://localhost:10001"] =
      [tellTimeCard, greetingCard] := by
  constructor
  · intro fetchCard base_urls
    have h := list_agent_cards_foldl fetchCard base_urls []
    simpa [list_agent_cards] using h
  · rfl

/-- The `AgentConnector(card.name, card.url, sender_agent="orchestrator_agent")`
value built by `OrchestratorAgent.__init__` (src/agents/host_agent/orchestrator.py,
lines 32-36). Only its constructor arguments are modelled:
src/agents/host_agent/agent_connect.py is not in the repository snapshot, and
the resolution claim needs nothing beyond them. -/
structure AgentConnector where
  name : String
  url : String
  sender_agent : String
deriving DecidableEq, Repr

/-- One step of the dict comprehension
`\x7bcard.name: AgentConnector(...) for card in agent_cards\x7d`: a later card
with the same name overwrites an earlier one. -/
def connectorInsert (d : String → Option AgentConnector) (card : AgentCard) :
    String → Option AgentConnector :=
  fun k =>
    if k = card.name then
      some { name := card.name, url := card.url, sender_agent := "orchestrator_agent" }
    else d k

/-- `self.connectors` built by `OrchestratorAgent.__init__`
(src/agents/host_agent/orchestrator.py, lines 32-36): a dict keyed by the
card's exact `name`. -/
def init_connectors (agent_cards : List AgentCard) : String → Option AgentConnector :=
  agent_cards.foldl connectorInsert (fun _ => none)

/-- The name-resolution step of `OrchestratorAgent._delegate_task`
(src/agents/host_agent/orchestrator.py, lines 91-113):
`if agent_name not in self.connectors: raise ValueError(f"Unknown agent: ...")`
followed by `connector = self.connectors[agent_name]` — a plain dict
membership test and lookup. The remainder of the method (session id, the
network call, reply extraction) is not part of resolution and is not modelled
here. -/
def delegate_task_resolve (connectors : String → Option AgentConnector)
    (agent_name : String) : Except String AgentConnector :=
  match connectors agent_name with
  | none => Except.error ("Unknown agent: " ++ agent_name)
  | some c => Except.ok c

theorem init_connectors_not_mem (name : String) :
    ∀ (cards : List AgentCard) (d : String → Option AgentConnector),
      (∀ c ∈ cards, c.name ≠ name) → cards.foldl connectorInsert d name = d name := by
  intro cards
  induction cards with
  | nil => intro d _; rfl
  | cons c cs ih =>
      intro d h
      have hc : c.name ≠ name := h c (by simp)
      have := ih (connectorInsert d c) (fun q hq => h q (by simp [hq]))
      rw [List.foldl_cons, this]
      simp only [connectorInsert]
      rw [if_neg (fun hn => hc hn.symm)]

theorem init_connectors_mem (name : String) :
    ∀ (cards : List AgentCard) (d : String → Option AgentConnector) (conn : AgentConnector),
      cards.foldl connectorInsert d name = some conn →
      (conn.name = name ∧ conn.sender_agent = "orchestrator_agent" ∧
        ∃ c ∈ cards, c.name = name ∧ conn.url = c.url) ∨
      d name = some conn := by
  intro cards
  induction cards with
  | nil => intro d conn h; exact Or.inr h
  | cons c cs ih =>
      intro d conn h
      rw [List.foldl_cons] at h
      rcases ih (connectorInsert d c) conn h with hfound | hbase
      · obtain ⟨h1, h2, c', hc', h3, h4⟩ := hfound
        exact Or.inl ⟨h1, h2, c', by simp [hc'], h3, h4⟩
      · by_cases hname : name = c.name
        · rw [connectorInsert, if_pos hname] at hbase
          refine Or.inl ⟨?_, ?_, c, by simp, hname.symm, ?_⟩
          · rw [← Option.some_inj.mp hbase]
            exact hname.symm
          · rw [← Option.some_inj.mp hbase]
          · rw [← Option.some_inj.mp hbase]
        · rw [connectorInsert, if_neg hname] at hbase
          exact Or.inr hbase

/-- C6 counterexample: with cards named "TellTimeAgent" and "GreetingAgent",
resolving "telltimeagent" (the claim's case-insensitive exact match) and
"time" (the claim's substring match) both fail with `Unknown agent`, instead
of selecting the first card; only the exact name "TellTimeAgent" resolves. -/
theorem delegate_task_resolve_counterexample :
    delegate_task_resolve (init_connectors [tellTimeCard, greetingCard]) "telltimeagent" =
      Except.error "Unknown agent: telltimeagent" ∧
    delegate_task_resolve (init_connectors [tellTimeCard, greetingCard]) "time" =
      Except.error "Unknown agent: time" ∧
    delegate_task_resolve (init_connectors [tellTimeCard, greetingCard]) "TellTimeAgent" =
      Except.ok
        { name := "TellTimeAgent"
          url := "http://localhost:10002"
          sender_agent := "orchestrator_agent" } := by
  refine ⟨rfl, rfl, rfl⟩

/-- C6 (amended): delegation resolves the requested agent name by a single
exact, case-sensitive dictionary lookup on the card's `name` (later duplicate
names shadow earlier ones); there is no case-insensitive, id, or substring
matching, and any name that is not exactly a card name yields the
`Unknown agent` error (so resolving "Weather" fails, as the claim states). -/
theorem delegate_task_resolve_exact (cards : List AgentCard) (name : String) :
    ((∀ c ∈ cards, c.name ≠ name) →
      delegate_task_resolve (init_connectors cards) name =
        Except.error ("Unknown agent: " ++ name)) ∧
    (∀ conn, delegate_task_resolve (init_connectors cards) name = Except.ok conn →
      conn.name = name ∧ ∃ c ∈ cards, c.name = name ∧ conn.url = c.url) := by
  constructor
  · intro h
    have hnone : init_connectors cards name = none :=
      init_connectors_not_mem name cards (fun _ => none) h
    unfold delegate_task_resolve
    rw [hnone]
  · intro conn h
    unfold delegate_task_resolve at h
    cases hlook : init_connectors cards name with
    | none => rw [hlook] at h; exact absurd h (by simp)
    | some c0 =>
        rw [hlook] at h
        have hc0 : c0 = conn := by
          have := h
          simp at this
          exact this
        rcases init_connectors_mem name cards (fun _ => none) c0 hlook with hfound | hbase
        · obtain ⟨h1, _, c', hc', h3, h4⟩ := hfound
          exact ⟨hc0 ▸ h1, c', hc', h3, hc0 ▸ h4⟩
        · exact absurd hbase (by simp)

/-- Witness for C6 (amended): "Weather" matches no card and errors; the exact
name "GreetingAgent" resolves to the greeting card's connector. -/
theorem delegate_task_resolve_exact_witness :
    delegate_task_resolve (init_connectors [tellTimeCard, greetingCard]) "Weather" =
      Except.error "Unknown agent: Weather" ∧
    (({ name := "GreetingAgent"
        url := "http://localhost:10001"
        sender_agent := "orchestrator_agent" } : AgentConnector).name = "GreetingAgent" ∧
      ∃ c ∈ [tellTimeCard, greetingCard], c.name = "GreetingAgent" ∧
        ({ name := "GreetingAgent"
           url := "http://localhost:10001"
           sender_agent := "orchestrator_agent" } : AgentConnector).url = c.url) := by
  constructor
  · exact (delegate_task_resolve_exact [tellTimeCard, greetingCard] "Weather").1
      (by intro c hc; fin_cases hc <;> simp [tellTimeCard, greetingCard])
  · exact (delegate_task_resolve_exact [tellTimeCard, greetingCard] "GreetingAgent").2
      { name := "GreetingAgent"
        url := "http://localhost:10001"
        sender_agent := "orchestrator_agent" } rfl

/-- The record written by `RpcLogger.log_interaction`
(src/utilities/rpc_logger.py): `\x7btimestamp, sender, receiver, direction,
data\x7d`; `datetime.utcnow().isoformat()` is modelled as a `Nat` instant and
the JSON dict `data` as an association list of strings. -/
structure LogEntry where
  timestamp : Nat
  sender : String
  receiver : String
  direction : String
  data : List (String × String)
deriving DecidableEq, Repr

/-- `RpcLogger.log_interaction` (src/utilities/rpc_logger.py, lines 13-33):
call `_ensure_log_dir` (`os.makedirs`, modelled by the effect outcome
`makedirs`), build the entry, then append one JSON line to the log file
(modelled by the effect `appendLine`). The method contains no exception
handling: it sequences the two filesystem effects and returns whatever they
produce. -/
def log_interaction (makedirs : Except String Unit)
    (appendLine : LogEntry → Except String Unit) (now : Nat)
    (sender receiver : String) (data : List (String × String))
    (direction : String) : Except String Unit := do
  makedirs
  appendLine
    { timestamp := now
      sender := sender
      receiver := receiver
      direction := direction
      data := data }

/-- C7 counterexample: when directory creation fails (say a PermissionError
from `os.makedirs`), `log_interaction` returns that very failure to the
caller instead of swallowing it — the exception propagates. -/
theorem log_interaction_counterexample :
    log_interaction (Except.error "PermissionError: logs") (fun _ => Except.ok ())
        0 "orchestrator_agent" "GreetingAgent" [] "send" =
      Except.error "PermissionError: logs" ∧
    log_interaction (Except.error "PermissionError: logs") (fun _ => Except.ok ())
        0 "orchestrator_agent" "GreetingAgent" [] "send" ≠ Except.ok () := by
  exact ⟨rfl, by simp [log_interaction, Bind.bind, Except.bind]⟩

/-- C7 (amended): `log_interaction` performs no exception handling — a failure
of the directory creation propagates unchanged to the caller, and when the
directory creation succeeds the result is exactly the outcome of the file
append (so append failures propagate too); only when both filesystem effects
succeed does the call return normally. -/
theorem log_interaction_propagates (makedirs : Except String Unit)
    (appendLine : LogEntry → Except String Unit) (now : Nat)
    (sender receiver : String) (data : List (String × String)) (direction : String) :
    (∀ e, makedirs = Except.error e →
      log_interaction makedirs appendLine now sender receiver data direction =
        Except.error e) ∧
    (makedirs = Except.ok () →
      log_interaction makedirs appendLine now sender receiver data direction =
        appendLine
          { timestamp := now
            sender := sender
            receiver := receiver
            direction := direction
            data := data }) := by
  constructor
  · intro e he
    simp [log_interaction, he, Bind.bind, Except.bind]
  · intro hok
    simp [log_interaction, hok, Bind.bind, Except.bind]

/-- Witness for C7 (amended): a failing makedirs propagates its error; a
succeeding makedirs hands control to the append, whose outcome is returned. -/
theorem log_interaction_propagates_witness :
    log_interaction (Except.error "PermissionError: read-only fs")
        (fun _ => Except.ok ()) 3 "client" "TellTimeAgent" [] "receive" =
      Except.error "PermissionError: read-only fs" ∧
    log_interaction (Except.ok ()) (fun _ => Except.error "OSError: disk full")
        3 "client" "TellTimeAgent" [] "receive" =
      Except.error "OSError: disk full" := by
  constructor
  · exact (log_interaction_propagates (Except.error "PermissionError: read-only fs")
      (fun _ => Except.ok ()) 3 "client" "TellTimeAgent" [] "receive").1
      "PermissionError: read-only fs" rfl
  · exact (log_interaction_propagates (Except.ok ())
      (fun _ => Except.error "OSError: disk full")
      3 "client" "TellTimeAgent" [] "receive").2 rfl

end A2A
